import Mathlib

/-!
Verification development for the mpr-research-data batch job
(src/mpr-research-data.py).  The Python program is shallowly embedded:
pure computations become Lean functions, the process environment, the
filesystem, the database driver, the JSON decoder and the object-store
client become oracle fields of `Env` / `World` records, and the
observable behaviour of a run (log lines, connection attempts, query
executions, uploads, the final exit) is collected in explicit result
values.  Every log message keeps the exact text the Python code emits,
via `LogLine.render`, together with its severity, via `LogLine.levelOf`.
-/

namespace MPRData

/-- Severity of a log line, mirroring the `logging` module levels used. -/
inductive LogLevel
  | info
  | warning
  | error
deriving DecidableEq

/-- One structured log line; each constructor corresponds to one
`logging.*` call site in the source, carrying the interpolated values. -/
inductive LogLine
  | logLevelValWarn
  | castError (name value : String)
  | valError (name value : String)
  | configSuccess
  | dbEstablished
  | dbErrMsg (m : String)
  | dbFailed
  | gcpAccountErr (m : String)
  | gcpAccountFailed
  | gcpValueErr (m : String)
  | gcpConnFailed
  | bucketNotFoundLog (bucket project : String)
  | bucketFoundLog (bucket project : String)
  | gcpEstablished
  | coursesRetrieved
  | courseErrMsg (m : String)
  | courseFailed
  | noCoursesLog
  | dataRetrieved
  | retrieveErrMsg (m : String)
  | retrieveFailed
  | slicing (name : String)
  | savingToGCP (name : String)
  | uploadErrMsg (m : String)
  | failedUpload (name : String)
  | warnNotAllSliced
  | warnNotAllSaved
deriving DecidableEq

/-- The exact message text each call site produces (the Python f-strings). -/
def LogLine.render : LogLine → String
  | .logLevelValWarn => "Validation error for config item LOG_LEVEL value. Defaulting to INFO."
  | .castError n v => s!"Casting error for config item \"{n}\" value \"{v}\"."
  | .valError n v => s!"Validation error for config item \"{n}\" value \"{v}\"."
  | .configSuccess => "All configuration parameters set up successfully."
  | .dbEstablished => "DB connection established and validated."
  | .dbErrMsg m => s!"Error Message: {m}"
  | .dbFailed => "Failed to establish DB connection."
  | .gcpAccountErr m => s!"Account Error: {m}"
  | .gcpAccountFailed => "Failed to find GCP service account. Check GCP JSON Credentials."
  | .gcpValueErr m => s!"Value Error: {m}"
  | .gcpConnFailed => "Failed to establish GCP connection."
  | .bucketNotFoundLog b p => s!"Bucket {b} in {p} not found."
  | .bucketFoundLog b p => s!"Bucket {b} found in {p}."
  | .gcpEstablished => "GCP connection established and validated."
  | .coursesRetrieved => "Courses retrieved..."
  | .courseErrMsg m => s!"Error Message: {m}"
  | .courseFailed => "Failed to retrieve Course List."
  | .noCoursesLog => "No courses to be retrieved."
  | .dataRetrieved => "Course Data retrieved..."
  | .retrieveErrMsg m => s!"Error Message: {m}"
  | .retrieveFailed => "Failed to retrieve Course Data."
  | .slicing n => s!"Slicing: {n}"
  | .savingToGCP n => s!"Saving to GCP: {n}"
  | .uploadErrMsg m => s!"Error Message: {m}"
  | .failedUpload n => s!"Failed to upload Course Data for {n} to GCP."
  | .warnNotAllSliced => "Not all course data could be sliced correctly."
  | .warnNotAllSaved => "Not all course data could be saved to GCP correctly."

/-- The severity each call site uses (`logging.info` / `warning` / `error`). -/
def LogLine.levelOf : LogLine → LogLevel
  | .logLevelValWarn => .warning
  | .castError _ _ => .error
  | .valError _ _ => .error
  | .configSuccess => .info
  | .dbEstablished => .info
  | .dbErrMsg _ => .error
  | .dbFailed => .error
  | .gcpAccountErr _ => .error
  | .gcpAccountFailed => .error
  | .gcpValueErr _ => .error
  | .gcpConnFailed => .error
  | .bucketNotFoundLog _ _ => .error
  | .bucketFoundLog _ _ => .info
  | .gcpEstablished => .info
  | .coursesRetrieved => .info
  | .courseErrMsg _ => .error
  | .courseFailed => .error
  | .noCoursesLog => .info
  | .dataRetrieved => .info
  | .retrieveErrMsg _ => .error
  | .retrieveFailed => .error
  | .slicing _ => .info
  | .savingToGCP _ => .info
  | .uploadErrMsg _ => .error
  | .failedUpload _ => .error
  | .warnNotAllSliced => .warning
  | .warnNotAllSaved => .warning

/-- Whether `pat` occurs at the front of `l`. -/
def frontMatches : List Char → List Char → Bool
  | [], _ => true
  | _ :: _, [] => false
  | p :: ps, c :: cs => p == c && frontMatches ps cs

/-- Whether `pat` occurs anywhere inside the character list. -/
def mentionsIn (pat : String) : List Char → Bool
  | [] => pat.data.isEmpty
  | c :: cs => frontMatches pat.data (c :: cs) || mentionsIn pat cs

/-- Whether string `s` contains `pat` as a contiguous substring. -/
def strMentions (s pat : String) : Bool := mentionsIn pat s.data

/-- List concatenation-map, spelled out so its equations are ours. -/
def flatMapL (f : α → List β) : List α → List β
  | [] => []
  | a :: as => f a ++ flatMapL f as

/-- Option-valued map keeping only the `some` results. -/
def filterMapL (f : α → Option β) : List α → List β
  | [] => []
  | a :: as =>
    match f a with
    | some b => b :: filterMapL f as
    | none => filterMapL f as

/-- Boolean conjunction of a predicate over a list. -/
def allL (p : α → Bool) : List α → Bool
  | [] => true
  | a :: as => p a && allL p as

/-- Number of occurrences of `a` in a list. -/
def countL [DecidableEq α] (a : α) : List α → Nat
  | [] => 0
  | b :: bs => (if b = a then 1 else 0) + countL a bs

/-- Remove the element at position `j` (identity when out of range). -/
def eraseIdxL : List α → Nat → List α
  | [], _ => []
  | _ :: as, 0 => as
  | a :: as, n + 1 => a :: eraseIdxL as n

/-! ## Tab-separated serialization
The slicing loop serializes each partition with
`to_csv(sep='\t', quoting=3, quotechar='', escapechar='\\')`:
no quoting, every special character (the delimiter, the escape
character, CR and LF) prefixed with a backslash, header row first, one
`\n`-terminated line per row. -/

/-- Characters the csv writer escapes in `QUOTE_NONE` mode with
`sep='\t'`, `escapechar='\\'`: delimiter, escape char, CR, LF. -/
def specialChar (c : Char) : Bool :=
  c == '\t' || c == '\\' || c == '\n' || c == '\r'

/-- Escape a single character for the TSV payload. -/
def escapeChar (c : Char) : List Char :=
  if specialChar c then ['\\', c] else [c]

/-- Escape a whole cell. -/
def escCellChars (l : List Char) : List Char := flatMapL escapeChar l

/-- One serialized row: escaped cells joined by the tab delimiter. -/
def rowChars : List (List Char) → List Char
  | [] => []
  | [c] => escCellChars c
  | c :: cs => escCellChars c ++ '\t' :: rowChars cs

/-- Serialized table body: each row followed by a newline. -/
def tableChars (rs : List (List (List Char))) : List Char :=
  flatMapL (fun r => rowChars r ++ ['\n']) rs

/-- The TSV artifact text for a header row plus data rows. -/
def serializeTable (header : List String) (rows : List (List String)) : String :=
  String.mk (tableChars ((header :: rows).map (fun r => r.map String.data)))

/-- State of the TSV reader: pending escape flag, current cell, current
row, completed rows. -/
structure PState where
  esc : Bool
  field : List Char
  row : List String
  rows : List (List String)

/-- One step of the TSV reader: a backslash escapes the next character;
an unescaped tab ends the cell; an unescaped newline ends the row. -/
def pstep (st : PState) (c : Char) : PState :=
  if st.esc then { st with esc := false, field := st.field ++ [c] }
  else if c = '\\' then { st with esc := true }
  else if c = '\t' then { st with field := [], row := st.row ++ [String.mk st.field] }
  else if c = '\n' then
    { st with field := [], row := [], rows := st.rows ++ [st.row ++ [String.mk st.field]] }
  else { st with field := st.field ++ [c] }

/-- Parse a TSV artifact back into its rows of cell values. -/
def parseTable (s : String) : List (List String) :=
  (s.data.foldl pstep ⟨false, [], [], []⟩).rows

/-! ## External collaborators -/

/-- A database-driver error; the code distinguishes only
`sqlalchemy.exc.OperationalError` from everything else. -/
inductive DBErr
  | operational (m : String)
  | programming (m : String)
  | dbOther (m : String)
deriving DecidableEq

/-- The text carried by a database error. -/
def DBErr.msg : DBErr → String
  | .operational m => m
  | .programming m => m
  | .dbOther m => m

/-- Outcome of authenticating the storage client. -/
inductive GCPAuth
  | okAuth
  | refreshError (m : String)
  | valueError (m : String)
deriving DecidableEq

/-- Outcome of one blob upload; the code catches only the not-found
exception. -/
inductive UploadResult
  | okU
  | notFound (m : String)
  | otherErr (m : String)
deriving DecidableEq

/-- Whether an upload outcome is the caught not-found error. -/
def isNotFoundB : UploadResult → Bool
  | .notFound _ => true
  | _ => false

/-- Whether an upload outcome is an uncaught (non not-found) error. -/
def isOtherB : UploadResult → Bool
  | .otherErr _ => true
  | _ => false

/-- Decidable equality of `Except` values, for evaluating outcomes on
concrete inputs. -/
instance {ε α : Type} [DecidableEq ε] [DecidableEq α] : DecidableEq (Except ε α)
  | Except.ok a, Except.ok b =>
    if h : a = b then isTrue (by rw [h])
    else isFalse (by intro he; cases he; exact h rfl)
  | Except.ok _, Except.error _ => isFalse (by intro h; cases h)
  | Except.error _, Except.ok _ => isFalse (by intro h; cases h)
  | Except.error e, Except.error f =>
    if h : e = f then isTrue (by rw [h])
    else isFalse (by intro he; cases he; exact h rfl)

/-- How a component stops early: a deliberate process exit
(`sys.exit(msg)`) or an uncaught exception propagating out. -/
inductive Halt
  | exitH (m : String)
  | raiseH (m : String)
deriving DecidableEq

/-- How the whole process ends. -/
inductive Final
  | exited (m : String)
  | completed
  | raised (m : String)
deriving DecidableEq

/-- Process exit status: `sys.exit(string)` exits with status 1, a
clean return with 0; an uncaught exception also ends the interpreter
with status 1. -/
def exitCode : Final → Nat
  | .exited _ => 1
  | .completed => 0
  | .raised _ => 1

/-- Side effects a run performs against the outside world. -/
inductive Event
  | dbConnectAttempt (connectString : String)
  | gcpConnectAttempt (bucketName : String)
  | courseQueryExec (q : String)
  | retrieveQueryExec (q : String)
deriving DecidableEq

/-! ## Database connection string -/

/-- The five database credential fields (the `dbParams` dict). -/
structure DBParams where
  NAME : String
  USER : String
  PASSWORD : String
  HOST : String
  PORT : Int

/-- The connection string built by `makeDBConnection`:
`f'mysql+pymysql://{USER}:{PASSWORD}@{HOST}:{PORT}/{NAME}'`. -/
def makeConnectString (p : DBParams) : String :=
  s!"mysql+pymysql://{p.USER}:{p.PASSWORD}@{p.HOST}:{p.PORT}/{p.NAME}"

/-! ## Records and the slicing/upload loop -/

/-- The bulk result of the record-fetch query: a header row and data
rows, each data row tagged with its `CourseID` partition-key value. -/
structure RecordTable where
  header : List String
  rows : List (Int × List String)

/-- Output artifact name: `f'{courseID} - {courseName}.tsv'`. -/
def fnameOf (c : Int × String) : String := s!"{c.1} - {c.2}.tsv"

/-- Artifact body for one partition key: the record table filtered to
rows whose `CourseID` equals the key, serialized with the header. -/
def sliceContent (rt : RecordTable) (cid : Int) : String :=
  serializeTable rt.header ((rt.rows.filter (fun r => r.1 == cid)).map Prod.snd)

/-- The loop body of `sliceAndPushToGCP`: for each course row, log the
slicing and saving steps, attempt the upload, and on a not-found error
log twice, clear the saved flag and continue; any other upload
exception is uncaught and aborts the loop. -/
def sliceGo (rt : RecordTable) (upload : String → UploadResult) :
    List (Int × String) → Bool → Bool →
    List LogLine × List (String × String) × Except Halt (Bool × Bool)
  | [], allSliced, allSaved => ([], [], Except.ok (allSliced, allSaved))
  | c :: rest, allSliced, allSaved =>
    match upload (fnameOf c) with
    | UploadResult.okU =>
      let r := sliceGo rt upload rest allSliced allSaved
      (LogLine.slicing (fnameOf c) :: LogLine.savingToGCP (fnameOf c) :: r.1,
       (fnameOf c, sliceContent rt c.1) :: r.2.1, r.2.2)
    | UploadResult.notFound m =>
      let r := sliceGo rt upload rest allSliced false
      (LogLine.slicing (fnameOf c) :: LogLine.savingToGCP (fnameOf c) ::
         LogLine.uploadErrMsg m :: LogLine.failedUpload (fnameOf c) :: r.1,
       r.2.1, r.2.2)
    | UploadResult.otherErr m =>
      ([LogLine.slicing (fnameOf c), LogLine.savingToGCP (fnameOf c)], [],
       Except.error (Halt.raiseH m))

/-- `sliceAndPushToGCP(courseDF, retrieveDF, bucket)`: runs the loop
with both status flags initially true, returning the emitted log
lines, the successfully uploaded `(name, content)` artifacts, and the
`(allSliced, allSaved)` pair (or the uncaught exception). -/
def sliceAndPushToGCP (courseDF : List (Int × String)) (retrieveDF : RecordTable)
    (upload : String → UploadResult) :
    List LogLine × List (String × String) × Except Halt (Bool × Bool) :=
  sliceGo retrieveDF upload courseDF true true

/-- Log lines one loop iteration emits, as a function of the course row. -/
def perLogs (upload : String → UploadResult) (c : Int × String) : List LogLine :=
  match upload (fnameOf c) with
  | UploadResult.okU => [LogLine.slicing (fnameOf c), LogLine.savingToGCP (fnameOf c)]
  | UploadResult.notFound m =>
    [LogLine.slicing (fnameOf c), LogLine.savingToGCP (fnameOf c),
     LogLine.uploadErrMsg m, LogLine.failedUpload (fnameOf c)]
  | UploadResult.otherErr _ => []

/-- The artifact one loop iteration stores, when its upload succeeds. -/
def perUpload (upload : String → UploadResult) (rt : RecordTable) (c : Int × String) :
    Option (String × String) :=
  match upload (fnameOf c) with
  | UploadResult.okU => some (fnameOf c, sliceContent rt c.1)
  | _ => none

/-! ## Configuration loading -/

/-- The parsed object-store credential blob; only its Python truthiness
is observable to the loader. -/
structure JsonBlob where
  truthy : Bool
deriving DecidableEq

/-- The process environment and filesystem/JSON oracles `setFromEnv`
consults: `os.environ`, `os.path.isdir`, `os.path.isfile`,
`json.loads`. -/
structure Env where
  vars : String → Option String
  isDir : String → Bool
  isFile : String → Bool
  parseJson : String → Option JsonBlob

/-- The configuration fields `setFromEnv` populates via `configFetch`. -/
inductive CfgField
  | gcloudBucket
  | numberOfMonths
  | queryFolder
  | courseQuery
  | retrieveQuery
  | dbName
  | dbUser
  | dbPassword
  | dbHost
  | dbPort
  | gcpKey
deriving DecidableEq

/-- Python `str(x)` applied to `os.environ.get`'s result: the string
itself, or the text `"None"` for an absent value. -/
def pyStr : Option String → String
  | some s => s
  | none => "None"

/-- Numeric value of an ASCII digit. -/
def digitVal (c : Char) : Option Nat :=
  if 48 ≤ c.toNat ∧ c.toNat ≤ 57 then some (c.toNat - 48) else none

/-- Accumulate a decimal digit string left to right. -/
def digitsValAux : List Char → Nat → Option Nat
  | [], acc => some acc
  | c :: rest, acc =>
    match digitVal c with
    | some d => digitsValAux rest (acc * 10 + d)
    | none => none

/-- Python `int(s)` on a decimal string: an optional minus sign
followed by digits, anything else raises `ValueError` (here `none`). -/
def pyInt (s : String) : Option Int :=
  match s.data with
  | [] => none
  | '-' :: [] => none
  | '-' :: c :: rest => (digitsValAux (c :: rest) 0).map (fun n => -(n : Int))
  | l => (digitsValAux l 0).map (fun n => (n : Int))

/-- Python `str.upper()` (ASCII). -/
def pyUpper (s : String) : String := String.mk (s.data.map Char.toUpper)

/-- `os.environ.get(name, default)`. -/
def pyGet (env : Env) (name : String) (default : Option String) : Option String :=
  match env.vars name with
  | some v => some v
  | none => default

/-- Python truthiness of a string-valued setting (None and "" are falsy). -/
def truthyStr : Option String → Bool
  | none => false
  | some s => s != ""

/-- Python truthiness of an integer-valued setting (None and 0 are falsy). -/
def truthyInt : Option Int → Bool
  | none => false
  | some v => v != 0

/-- Python truthiness of the credential blob setting. -/
def truthyJson : Option JsonBlob → Bool
  | none => false
  | some b => b.truthy

/-- Result of one `configFetch` call: the value (None on failure), the
error log lines emitted, and the field marked failed, if any. -/
structure FetchResult (α : Type) where
  value : Option α
  logs : List LogLine
  errs : List CfgField

/-- `configFetch` for a string setting: the `str` cast is total, so
only the optional validation predicate can fail. -/
def fetchStr (env : Env) (f : CfgField) (name : String) (default : Option String)
    (validation : Option (String → Bool)) : FetchResult String :=
  let value := pyStr (pyGet env name default)
  match validation with
  | none => ⟨some value, [], []⟩
  | some p =>
    if p value then ⟨some value, [], []⟩
    else ⟨none, [LogLine.valError name value], [f]⟩

/-- `configFetch` for an integer setting with an `int` cast (which can
raise on an environment-provided string) and a validation predicate. -/
def fetchInt (env : Env) (f : CfgField) (name : String) (default : Int)
    (validation : Int → Bool) : FetchResult Int :=
  match env.vars name with
  | none =>
    if validation default then ⟨some default, [], []⟩
    else ⟨none, [LogLine.valError name (toString default)], [f]⟩
  | some s =>
    match pyInt s with
    | none => ⟨none, [LogLine.castError name s], [f]⟩
    | some v =>
      if validation v then ⟨some v, [], []⟩
      else ⟨none, [LogLine.valError name (toString v)], [f]⟩

/-- `configFetch('GCP_KEY', casting=lambda x: json.loads(str(x)))`:
no default, so an absent variable decodes the text `"None"`, which the
JSON oracle rejects. -/
def fetchJson (env : Env) : FetchResult JsonBlob :=
  let value := pyStr (env.vars "GCP_KEY")
  match env.parseJson value with
  | none => ⟨none, [LogLine.castError "GCP_KEY" value], [CfgField.gcpKey]⟩
  | some b => ⟨some b, [], []⟩

/-- The `GCLOUD_BUCKET` fetch (string cast, no validation). -/
def bucketFetch (env : Env) : FetchResult String :=
  fetchStr env CfgField.gcloudBucket "GCLOUD_BUCKET" (some "mpr-research-data-uploads") none

/-- The `NUMBER_OF_MONTHS` fetch (int cast, positivity validation). -/
def monthsFetch (env : Env) : FetchResult Int :=
  fetchInt env CfgField.numberOfMonths "NUMBER_OF_MONTHS" 4 (fun x => decide (0 < x))

/-- The `QUERY_FOLDER` fetch (string cast, existing-directory validation). -/
def folderFetch (env : Env) : FetchResult String :=
  fetchStr env CfgField.queryFolder "QUERY_FOLDER" (some "queries") (some env.isDir)

/-- The `COURSE_QUERY` fetch: validated as an existing file inside the
already-validated query folder. -/
def courseFetch (env : Env) (fval : String) : FetchResult String :=
  fetchStr env CfgField.courseQuery "COURSE_QUERY" (some "courseQuery.sql")
    (some (fun x => env.isFile (fval ++ "/" ++ x)))

/-- The `RETRIEVE_QUERY` fetch, same validation as `COURSE_QUERY`. -/
def retrieveFetch (env : Env) (fval : String) : FetchResult String :=
  fetchStr env CfgField.retrieveQuery "RETRIEVE_QUERY" (some "retrieveQuery.sql")
    (some (fun x => env.isFile (fval ++ "/" ++ x)))

/-- The `DB_NAME` fetch (string cast of a `None` default, no validation). -/
def dbNameFetch (env : Env) : FetchResult String :=
  fetchStr env CfgField.dbName "DB_NAME" none none

/-- The `DB_USER` fetch. -/
def dbUserFetch (env : Env) : FetchResult String :=
  fetchStr env CfgField.dbUser "DB_USER" none none

/-- The `DB_PASSWORD` fetch. -/
def dbPasswordFetch (env : Env) : FetchResult String :=
  fetchStr env CfgField.dbPassword "DB_PASSWORD" none none

/-- The `DB_HOST` fetch. -/
def dbHostFetch (env : Env) : FetchResult String :=
  fetchStr env CfgField.dbHost "DB_HOST" none none

/-- The `DB_PORT` fetch (int cast, positivity validation, default 3306). -/
def dbPortFetch (env : Env) : FetchResult Int :=
  fetchInt env CfgField.dbPort "DB_PORT" 3306 (fun x => decide (0 < x))

/-- The `GCP_KEY` fetch. -/
def gcpKeyFetch (env : Env) : FetchResult JsonBlob := fetchJson env

/-- Whether the cast-or-validation check of a field fails against a
given environment; the two query-filename checks only exist when the
query-folder check passed. -/
def fieldFails (env : Env) : CfgField → Bool
  | CfgField.gcloudBucket => !(bucketFetch env).errs.isEmpty
  | CfgField.numberOfMonths => !(monthsFetch env).errs.isEmpty
  | CfgField.queryFolder => !(folderFetch env).errs.isEmpty
  | CfgField.courseQuery =>
    match (folderFetch env).value with
    | some fval => !(courseFetch env fval).errs.isEmpty
    | none => false
  | CfgField.retrieveQuery =>
    match (folderFetch env).value with
    | some fval => !(retrieveFetch env fval).errs.isEmpty
    | none => false
  | CfgField.dbName => !(dbNameFetch env).errs.isEmpty
  | CfgField.dbUser => !(dbUserFetch env).errs.isEmpty
  | CfgField.dbPassword => !(dbPasswordFetch env).errs.isEmpty
  | CfgField.dbHost => !(dbHostFetch env).errs.isEmpty
  | CfgField.dbPort => !(dbPortFetch env).errs.isEmpty
  | CfgField.gcpKey => !(gcpKeyFetch env).errs.isEmpty

/-- The fields whose checks actually run against an environment: all of
them, except the two query filenames when the folder check failed. -/
def enabledFields (env : Env) : List CfgField :=
  [CfgField.gcloudBucket, CfgField.numberOfMonths, CfgField.queryFolder] ++
  (match (folderFetch env).value with
   | some _ => [CfgField.courseQuery, CfgField.retrieveQuery]
   | none => []) ++
  [CfgField.dbName, CfgField.dbUser, CfgField.dbPassword, CfgField.dbHost,
   CfgField.dbPort, CfgField.gcpKey]

/-- The `LOG_LEVEL` value after `str(...).upper()`; the `__init__`
default is the integer `logging.INFO`, whose `str` is `"20"`. -/
def logLevelValue (env : Env) : String :=
  pyUpper (pyStr (pyGet env "LOG_LEVEL" (some "20")))

/-- The level names `logging.getLevelName` resolves. -/
def validLogLevels : List String :=
  ["CRITICAL", "FATAL", "ERROR", "WARN", "WARNING", "INFO", "DEBUG", "NOTSET"]

/-- The `LOG_LEVEL` field warns instead of failing: an unknown level
leaves the root level in place with a warning. -/
def logLevelLogs (env : Env) : List LogLine :=
  if validLogLevels.contains (logLevelValue env) then [] else [LogLine.logLevelValWarn]

/-- Outcome of the two query-filename fetches, which run only when the
query folder resolved to a string. -/
structure QueryFilesResult where
  courseFile : Option String
  retrieveFile : Option String
  logs : List LogLine
  errs : List CfgField
  checked : List CfgField
  ok : Bool

/-- The guarded query-template loop of `setFromEnv`: skipped entirely
(keeping the `__init__` defaults) when the folder is invalid. -/
def queryFilesStep (env : Env) : QueryFilesResult :=
  match (folderFetch env).value with
  | some fval =>
    let c := courseFetch env fval
    let r := retrieveFetch env fval
    ⟨c.value, r.value, c.logs ++ r.logs, c.errs ++ r.errs,
     [CfgField.courseQuery, CfgField.retrieveQuery],
     truthyStr c.value && truthyStr r.value⟩
  | none => ⟨some "courseQuery.sql", some "retrieveQuery.sql", [], [], [], true⟩

/-- The configuration record after `setFromEnv` (fields are `none`
where a check failed and Python stored `None`). -/
structure ConfigState where
  logLevel : String
  targetBucketName : Option String
  numberOfMonths : Option Int
  defaultQueryFolder : Option String
  courseQueryFile : Option String
  retrieveQueryFile : Option String
  dbName : Option String
  dbUser : Option String
  dbPassword : Option String
  dbHost : Option String
  dbPort : Option Int
  gcpParams : Option JsonBlob
deriving DecidableEq

/-- Everything `setFromEnv` produces: the populated configuration, the
aggregated `envImportSuccess` flag, the log lines in emission order,
the fields whose checks ran, and the fields that logged an error. -/
structure SetFromEnvResult where
  cfg : ConfigState
  success : Bool
  logs : List LogLine
  checked : List CfgField
  errFields : List CfgField

/-- `Config.setFromEnv`: every field is fetched in source order; each
failure clears the accumulated success flag but checking continues, so
one run reports every misconfiguration; the success message is logged
only when everything passed (on failure the caller exits). -/
def setFromEnv (env : Env) : SetFromEnvResult :=
  let b := bucketFetch env
  let m := monthsFetch env
  let fo := folderFetch env
  let qf := queryFilesStep env
  let dn := dbNameFetch env
  let du := dbUserFetch env
  let dpw := dbPasswordFetch env
  let dh := dbHostFetch env
  let dpo := dbPortFetch env
  let g := gcpKeyFetch env
  let success := truthyStr b.value && truthyInt m.value && truthyStr fo.value && qf.ok &&
    truthyStr dn.value && truthyStr du.value && truthyStr dpw.value && truthyStr dh.value &&
    truthyInt dpo.value && truthyJson g.value
  { cfg :=
      { logLevel := logLevelValue env
        targetBucketName := b.value
        numberOfMonths := m.value
        defaultQueryFolder := fo.value
        courseQueryFile := qf.courseFile
        retrieveQueryFile := qf.retrieveFile
        dbName := dn.value
        dbUser := du.value
        dbPassword := dpw.value
        dbHost := dh.value
        dbPort := dpo.value
        gcpParams := g.value }
    success := success
    logs := logLevelLogs env ++ b.logs ++ m.logs ++ fo.logs ++ qf.logs ++ dn.logs ++
      du.logs ++ dpw.logs ++ dh.logs ++ dpo.logs ++ g.logs ++
      (if success then [LogLine.configSuccess] else [])
    checked := [CfgField.gcloudBucket, CfgField.numberOfMonths, CfgField.queryFolder] ++
      qf.checked ++
      [CfgField.dbName, CfgField.dbUser, CfgField.dbPassword, CfgField.dbHost,
       CfgField.dbPort, CfgField.gcpKey]
    errFields := b.errs ++ m.errs ++ fo.errs ++ qf.errs ++ dn.errs ++ du.errs ++
      dpw.errs ++ dh.errs ++ dpo.errs ++ g.errs }

/-! ## Queries, connections, and the orchestrator -/

/-- The remaining outside world: query files, the database driver, the
storage client. -/
structure World where
  readFile : String → String
  dbConnectErr : Option DBErr
  gcpAuth : GCPAuth
  bucketExists : Bool
  project : String
  runCourseQuery : String → Except DBErr (List (Int × String))
  runRetrieveQuery : String → Except DBErr RecordTable
  upload : String → UploadResult

/-- Replace every `\x7b\x7d` placeholder pair with the substitution. -/
def fillAux (sub : List Char) : List Char → List Char
  | [] => []
  | '\x7b' :: '\x7d' :: rest => sub ++ fillAux sub rest
  | c :: rest => c :: fillAux sub rest

/-- Python `template.format(value)` for a template holding one
positional placeholder. -/
def formatFill (s sub : String) : String := String.mk (fillAux sub.data s.data)

/-- `queryRetriever`: read the template text and, when a (truthy)
modifier is supplied, fill the placeholder. -/
def queryRetriever (w : World) (queryName queryFolder : String)
    (queryModifier : Option String) : String :=
  let text := w.readFile (queryFolder ++ "/" ++ queryName)
  match queryModifier with
  | some m => if m = "" then text else formatFill text m
  | none => text

/-- `makeDBConnection`: build the connection string, open and probe the
connection; an `OperationalError` is logged and exits, any other
driver error is uncaught. -/
def makeDBConnection (w : World) (p : DBParams) :
    List LogLine × List Event × Except Halt Unit :=
  let cs := makeConnectString p
  match w.dbConnectErr with
  | none => ([LogLine.dbEstablished], [Event.dbConnectAttempt cs], Except.ok ())
  | some (DBErr.operational m) =>
    ([LogLine.dbErrMsg m, LogLine.dbFailed], [Event.dbConnectAttempt cs],
     Except.error (Halt.exitH "Exiting due to failed DB connection."))
  | some e =>
    ([], [Event.dbConnectAttempt cs], Except.error (Halt.raiseH e.msg))

/-- `makeGCPConnection`: authenticate, then check the bucket exists,
with distinct exit messages for credential and bucket-name problems. -/
def makeGCPConnection (w : World) (bucketName : String) :
    List LogLine × List Event × Except Halt Unit :=
  match w.gcpAuth with
  | GCPAuth.okAuth =>
    if w.bucketExists then
      ([LogLine.bucketFoundLog bucketName w.project, LogLine.gcpEstablished],
       [Event.gcpConnectAttempt bucketName], Except.ok ())
    else
      ([LogLine.bucketNotFoundLog bucketName w.project],
       [Event.gcpConnectAttempt bucketName],
       Except.error (Halt.exitH "Exiting due to invalid bucket name."))
  | GCPAuth.refreshError m =>
    ([LogLine.gcpAccountErr m, LogLine.gcpAccountFailed],
     [Event.gcpConnectAttempt bucketName],
     Except.error (Halt.exitH "Exiting due to failed GCP connection."))
  | GCPAuth.valueError m =>
    ([LogLine.gcpValueErr m, LogLine.gcpConnFailed],
     [Event.gcpConnectAttempt bucketName],
     Except.error (Halt.exitH "Exiting due to failed GCP connection."))

/-- `courseQueryMaker`: resolve the course-list template with the
lookback months substituted and execute it; only an
`OperationalError` is logged and exits, anything else is uncaught. -/
def courseQueryMaker (w : World) (tmpl : String) (months : Int) (folder : String) :
    List LogLine × List Event × Except Halt (List (Int × String)) :=
  let q := queryRetriever w tmpl folder (some (toString months))
  match w.runCourseQuery q with
  | Except.ok df => ([LogLine.coursesRetrieved], [Event.courseQueryExec q], Except.ok df)
  | Except.error (DBErr.operational m) =>
    ([LogLine.courseErrMsg m, LogLine.courseFailed], [Event.courseQueryExec q],
     Except.error (Halt.exitH "Exiting due to failure in Course List retrieval."))
  | Except.error e =>
    ([], [Event.courseQueryExec q], Except.error (Halt.raiseH e.msg))

/-- `','.join(map(str, courseIDs))`. -/
def joinComma : List String → String
  | [] => ""
  | [s] => s
  | s :: rest => s ++ "," ++ joinComma rest

/-- `retrieveQueryMaker`: substitute the comma-joined id list into the
record-fetch template and execute it once; only an `OperationalError`
is logged and exits, anything else is uncaught. -/
def retrieveQueryMaker (w : World) (tmpl : String) (courseIDs : List Int) (folder : String) :
    List LogLine × List Event × Except Halt RecordTable :=
  let idStr := joinComma (courseIDs.map toString)
  let q := queryRetriever w tmpl folder (some idStr)
  match w.runRetrieveQuery q with
  | Except.ok df => ([LogLine.dataRetrieved], [Event.retrieveQueryExec q], Except.ok df)
  | Except.error (DBErr.operational m) =>
    ([LogLine.retrieveErrMsg m, LogLine.retrieveFailed], [Event.retrieveQueryExec q],
     Except.error (Halt.exitH "Exiting due to failure in Course Data retrieval."))
  | Except.error e =>
    ([], [Event.retrieveQueryExec q], Except.error (Halt.raiseH e.msg))

/-- Turn an early stop into the final process state. -/
def haltFinal : Halt → Final
  | Halt.exitH m => Final.exited m
  | Halt.raiseH m => Final.raised m

/-- Observable outcome of one run: log lines, external side effects,
stored artifacts, process end. -/
structure RunResult where
  logs : List LogLine
  trace : List Event
  uploads : List (String × String)
  final : Final

/-- The `dbParams` dict read back out of the loaded configuration. -/
def dbParamsOf (c : ConfigState) : DBParams :=
  { NAME := c.dbName.getD ""
    USER := c.dbUser.getD ""
    PASSWORD := c.dbPassword.getD ""
    HOST := c.dbHost.getD ""
    PORT := c.dbPort.getD 0 }

/-- The resolved course-list query text a run executes. -/
def courseQueryText (env : Env) (w : World) : String :=
  queryRetriever w (((setFromEnv env).cfg.courseQueryFile).getD "")
    (((setFromEnv env).cfg.defaultQueryFolder).getD "")
    (some (toString (((setFromEnv env).cfg.numberOfMonths).getD 0)))

/-- `main`: load config (exiting on failure before anything else),
connect to the database and the object store, list courses (exiting
with the distinct nothing-to-do message when empty), fetch all
records, slice and upload, then warn once per cleared flag. -/
def mainRun (env : Env) (w : World) : RunResult :=
  let r := setFromEnv env
  if r.success then
    match makeDBConnection w (dbParamsOf r.cfg) with
    | (dlogs, dtr, Except.error h) => ⟨r.logs ++ dlogs, dtr, [], haltFinal h⟩
    | (dlogs, dtr, Except.ok _) =>
      match makeGCPConnection w (r.cfg.targetBucketName.getD "") with
      | (glogs, gtr, Except.error h) => ⟨r.logs ++ dlogs ++ glogs, dtr ++ gtr, [], haltFinal h⟩
      | (glogs, gtr, Except.ok _) =>
        match courseQueryMaker w (r.cfg.courseQueryFile.getD "")
            (r.cfg.numberOfMonths.getD 0) (r.cfg.defaultQueryFolder.getD "") with
        | (clogs, ctr, Except.error h) =>
          ⟨r.logs ++ dlogs ++ glogs ++ clogs, dtr ++ gtr ++ ctr, [], haltFinal h⟩
        | (clogs, ctr, Except.ok courseDF) =>
          if courseDF.length = 0 then
            ⟨r.logs ++ dlogs ++ glogs ++ clogs ++ [LogLine.noCoursesLog],
             dtr ++ gtr ++ ctr, [],
             Final.exited "Exiting due to no courses being found in current configuration."⟩
          else
            match retrieveQueryMaker w (r.cfg.retrieveQueryFile.getD "")
                (courseDF.map Prod.fst) (r.cfg.defaultQueryFolder.getD "") with
            | (rlogs, rtr, Except.error h) =>
              ⟨r.logs ++ dlogs ++ glogs ++ clogs ++ rlogs, dtr ++ gtr ++ ctr ++ rtr, [],
               haltFinal h⟩
            | (rlogs, rtr, Except.ok recT) =>
              match sliceAndPushToGCP courseDF recT w.upload with
              | (slogs, ups, Except.error h) =>
                ⟨r.logs ++ dlogs ++ glogs ++ clogs ++ rlogs ++ slogs,
                 dtr ++ gtr ++ ctr ++ rtr, ups, haltFinal h⟩
              | (slogs, ups, Except.ok flags) =>
                ⟨r.logs ++ dlogs ++ glogs ++ clogs ++ rlogs ++ slogs ++
                   (if flags.1 then [] else [LogLine.warnNotAllSliced]) ++
                   (if flags.2 then [] else [LogLine.warnNotAllSaved]),
                 dtr ++ gtr ++ ctr ++ rtr, ups, Final.completed⟩
  else
    ⟨r.logs, [], [], Final.exited "Exiting due to configuration parameter import problems."⟩

/-! ## Config.set -/

/-- Python `setattr` on an instance dictionary: update the key in place
when present, append it otherwise. -/
def pySetAttr : List (String × α) → String → α → List (String × α)
  | [], k, v => [(k, v)]
  | (k', v') :: rest, k, v =>
    if k' = k then (k, v) :: rest else (k', v') :: pySetAttr rest k v

/-- `Config.set(name, value)`: accepts any `name` present in the
attribute dictionary, but then executes `self.name = value`, writing
the attribute literally called `"name"`; an unknown `name` raises
`NameError` (modelled as `none`). -/
def configSet (d : List (String × α)) (n : String) (v : α) :
    Option (List (String × α)) :=
  if (d.lookup n).isSome then some (pySetAttr d "name" v) else none

/-! ## Concrete instances used by witnesses and counterexamples -/

/-- A world in which every external collaborator succeeds. -/
def wOk : World :=
  { readFile := fun _ => "SELECT * FROM t WHERE x IN (\x7b\x7d)"
    dbConnectErr := none
    gcpAuth := GCPAuth.okAuth
    bucketExists := true
    project := "research-project"
    runCourseQuery := fun _ => Except.ok []
    runRetrieveQuery := fun _ => Except.ok ⟨[], []⟩
    upload := fun _ => UploadResult.okU }

/-- An environment in which every configuration check passes (absent
variables fall back to their defaults; the JSON oracle accepts). -/
def envOk : Env :=
  { vars := fun _ => none
    isDir := fun _ => true
    isFile := fun _ => true
    parseJson := fun _ => some ⟨true⟩ }

/-- `envOk` with `NUMBER_OF_MONTHS=0`, which fails the positivity
validation. -/
def envMonthsBad : Env :=
  { envOk with vars := fun n => if n = "NUMBER_OF_MONTHS" then some "0" else none }

/-- `envOk` with a query-folder path that is not a directory. -/
def envFolderBad : Env :=
  { envOk with isDir := fun _ => false }

/-- A world whose query executions raise a non-operational
(programming) database error. -/
def wProgErr : World :=
  { wOk with
    runCourseQuery := fun _ => Except.error (DBErr.programming "ProgrammingError: 1064 bad SQL")
    runRetrieveQuery := fun _ => Except.error (DBErr.programming "ProgrammingError: 1064 bad SQL") }

/-- An upload oracle failing with not-found exactly for `"1 - A.tsv"`. -/
def upNotFound1 : String → UploadResult :=
  fun n => if n = "1 - A.tsv" then UploadResult.notFound "404 blob not found" else UploadResult.okU

/-- An upload oracle that always succeeds. -/
def upOk : String → UploadResult := fun _ => UploadResult.okU

/-- A record table with no data rows. -/
def rtEmpty : RecordTable := ⟨["CourseID", "Data"], []⟩

/-- A record table whose single row belongs to partition 8, so that
partition 7 matches zero rows. -/
def rt8 : RecordTable := ⟨["CourseID", "Data"], [(8, ["8", "x"])]⟩

/-- The course list of the concrete spec scenario. -/
def coursesC6 : List (Int × String) := [(101, "Intro")]

/-- The record table of the concrete spec scenario: two rows for
partition 101 and one for the descriptor-less partition 999. -/
def rtC6 : RecordTable :=
  ⟨["CourseID", "Data"],
   [(101, ["101", "rowA"]), (101, ["101", "rowB"]), (999, ["999", "rowC"])]⟩


/-- A world whose query executions raise an operational database error. -/
def wOpErr : World :=
  { wOk with
    runCourseQuery := fun _ => Except.error (DBErr.operational "OperationalError: 2003 server down")
    runRetrieveQuery := fun _ => Except.error (DBErr.operational "OperationalError: 2003 server down") }

/-- A concrete attribute dictionary as built by `Config.__init__`. -/
def dAttrs : List (String × Nat) := [("logLevel", 1)]

theorem pySetAttr_lookup_self {α : Type} (d : List (String × α)) (k : String) (v : α) :
    (pySetAttr d k v).lookup k = some v := by
  induction d with
  | nil => simp [pySetAttr, List.lookup]
  | cons a rest ih =>
    obtain ⟨k', v'⟩ := a
    by_cases h : k' = k
    · subst h
      simp [pySetAttr, List.lookup]
    · have hne : (k == k') = false := by simp [Ne.symm h]
      simp [pySetAttr, h, List.lookup, hne, ih]

theorem pySetAttr_lookup_other {α : Type} (d : List (String × α)) (k m : String) (v : α)
    (h : m ≠ k) : (pySetAttr d k v).lookup m = d.lookup m := by
  have hmk : (m == k) = false := by simp [h]
  induction d with
  | nil => simp [pySetAttr, List.lookup, hmk]
  | cons a rest ih =>
    obtain ⟨k', v'⟩ := a
    by_cases hk : k' = k
    · subst hk
      simp [pySetAttr, List.lookup, hmk]
    · cases hmk' : (m == k') <;> simp [pySetAttr, hk, List.lookup, hmk', ih]

/-- Claim C10: `Config.set(name, value)` accepts any name present in the
attribute dictionary but then assigns the attribute literally called
`"name"`, leaving every other attribute unchanged; `NameError` is raised
exactly for names not present. -/
theorem config_set_writes_literal_name_attribute {α : Type} (d : List (String × α))
    (n : String) (v : α) :
    (configSet d n v = none ↔ d.lookup n = none) ∧
    (∀ d', configSet d n v = some d' →
      (∀ m, m ≠ "name" → d'.lookup m = d.lookup m) ∧ d'.lookup "name" = some v) := by
  refine ⟨?_, ?_⟩
  · cases hl : d.lookup n with
    | none => simp [configSet, hl]
    | some x => simp [configSet, hl]
  · intro d' hd'
    cases hl : d.lookup n with
    | none => simp [configSet, hl] at hd'
    | some x =>
      simp [configSet, hl] at hd'
      subst hd'
      exact ⟨fun m hm => pySetAttr_lookup_other d "name" m v hm,
        pySetAttr_lookup_self d "name" v⟩

theorem config_set_witness :
    configSet dAttrs "logLevel" (2 : Nat) = some [("logLevel", 1), ("name", 2)] ∧
    ([("logLevel", 1), ("name", 2)] : List (String × Nat)).lookup "logLevel" = some 1 ∧
    ([("logLevel", 1), ("name", 2)] : List (String × Nat)).lookup "name" = some 2 := by
  refine ⟨rfl, ?_, ?_⟩
  · have := ((config_set_writes_literal_name_attribute dAttrs "logLevel" 2).2
      [("logLevel", 1), ("name", 2)] rfl).1 "logLevel" (by decide)
    exact this
  · exact ((config_set_writes_literal_name_attribute dAttrs "logLevel" 2).2
      [("logLevel", 1), ("name", 2)] rfl).2

/-- Claim C7: the connection string incorporates exactly the five
credential fields, in the `mysql+pymysql` URL shape, and nothing else. -/
theorem connect_string_uses_exactly_the_five_credentials (p : DBParams) :
    makeConnectString p =
      "mysql+pymysql://" ++ p.USER ++ ":" ++ p.PASSWORD ++ "@" ++ p.HOST ++ ":" ++
        toString p.PORT ++ "/" ++ p.NAME := by
  have h : makeConnectString p =
      "mysql+pymysql://" ++ p.USER ++ ":" ++ p.PASSWORD ++ "@" ++ p.HOST ++ ":" ++
        toString p.PORT ++ "/" ++ p.NAME ++ "" := rfl
  rw [h]; simp

/-- Claim C6: in the concrete scenario, exactly one artifact named
`"101 - Intro.tsv"` is uploaded, containing only the two partition-101
rows; the row for partition 999 is dropped without any error. -/
theorem concrete_single_course_scenario :
    (sliceAndPushToGCP coursesC6 rtC6 upOk).2.1 =
      [("101 - Intro.tsv",
        serializeTable ["CourseID", "Data"] [["101", "rowA"], ["101", "rowB"]])] ∧
    (sliceAndPushToGCP coursesC6 rtC6 upOk).2.2 = Except.ok (true, true) ∧
    ((sliceAndPushToGCP coursesC6 rtC6 upOk).1.filter
      (fun l => LogLine.levelOf l == LogLevel.error)) = [] ∧
    parseTable (serializeTable ["CourseID", "Data"] [["101", "rowA"], ["101", "rowB"]]) =
      [["CourseID", "Data"], ["101", "rowA"], ["101", "rowB"]] :=
  ⟨by decide, by decide, by decide, by decide⟩

/-- Claim C2 counterexample: a database execution error that is not an
`OperationalError` (here a programming error from malformed SQL) is not
logged and does not terminate at the point of detection; it propagates
out of both query makers as an uncaught exception. -/
theorem nonoperational_query_error_bubbles_unlogged :
    (courseQueryMaker wProgErr "courseQuery.sql" 4 "queries").2.2 =
      Except.error (Halt.raiseH "ProgrammingError: 1064 bad SQL") ∧
    (courseQueryMaker wProgErr "courseQuery.sql" 4 "queries").1 = [] ∧
    (retrieveQueryMaker wProgErr "retrieveQuery.sql" [101] "queries").2.2 =
      Except.error (Halt.raiseH "ProgrammingError: 1064 bad SQL") ∧
    (retrieveQueryMaker wProgErr "retrieveQuery.sql" [101] "queries").1 = [] :=
  ⟨rfl, rfl, rfl, rfl⟩

/-- Claim C2 amended: an `OperationalError` from either query is logged
(error message plus failure line) and terminates the process at the
point of detection with the corresponding exit message. -/
theorem operational_query_error_logs_and_exits :
    (∀ (w : World) (tmpl : String) (months : Int) (folder : String) (m : String),
      w.runCourseQuery (queryRetriever w tmpl folder (some (toString months))) =
        Except.error (DBErr.operational m) →
      courseQueryMaker w tmpl months folder =
        ([LogLine.courseErrMsg m, LogLine.courseFailed],
         [Event.courseQueryExec (queryRetriever w tmpl folder (some (toString months)))],
         Except.error (Halt.exitH "Exiting due to failure in Course List retrieval."))) ∧
    (∀ (w : World) (tmpl : String) (ids : List Int) (folder : String) (m : String),
      w.runRetrieveQuery
          (queryRetriever w tmpl folder (some (joinComma (ids.map toString)))) =
        Except.error (DBErr.operational m) →
      retrieveQueryMaker w tmpl ids folder =
        ([LogLine.retrieveErrMsg m, LogLine.retrieveFailed],
         [Event.retrieveQueryExec
            (queryRetriever w tmpl folder (some (joinComma (ids.map toString))))],
         Except.error (Halt.exitH "Exiting due to failure in Course Data retrieval."))) := by
  constructor
  · intro w tmpl months folder m h
    simp [courseQueryMaker, h]
  · intro w tmpl ids folder m h
    simp [retrieveQueryMaker, h]

theorem operational_query_error_witness :
    wOpErr.runCourseQuery
        (queryRetriever wOpErr "courseQuery.sql" "queries" (some (toString (4 : Int)))) =
      Except.error (DBErr.operational "OperationalError: 2003 server down") ∧
    courseQueryMaker wOpErr "courseQuery.sql" 4 "queries" =
      ([LogLine.courseErrMsg "OperationalError: 2003 server down", LogLine.courseFailed],
       [Event.courseQueryExec
          (queryRetriever wOpErr "courseQuery.sql" "queries" (some (toString (4 : Int))))],
       Except.error (Halt.exitH "Exiting due to failure in Course List retrieval.")) :=
  ⟨rfl, (operational_query_error_logs_and_exits).1 wOpErr "courseQuery.sql" 4 "queries"
    "OperationalError: 2003 server down" rfl⟩


theorem foldl_pstep_escCell (l : List Char) (rest : List Char) (fld : List Char)
    (row : List String) (rows : List (List String)) :
    List.foldl pstep ⟨false, fld, row, rows⟩ (escCellChars l ++ rest) =
      List.foldl pstep ⟨false, fld ++ l, row, rows⟩ rest := by
  induction l generalizing fld with
  | nil => simp [escCellChars, flatMapL]
  | cons c l ih =>
    by_cases hc : specialChar c = true
    · have h1 : escCellChars (c :: l) = '\\' :: c :: escCellChars l := by
        simp [escCellChars, flatMapL, escapeChar, hc]
      rw [h1, List.cons_append, List.cons_append, List.foldl_cons, List.foldl_cons]
      have h2 : pstep (pstep ⟨false, fld, row, rows⟩ '\\') c =
          ⟨false, fld ++ [c], row, rows⟩ := by
        simp [pstep]
      rw [h2, ih]
      simp
    · have h1 : escCellChars (c :: l) = c :: escCellChars l := by
        simp [escCellChars, flatMapL, escapeChar, hc]
      have ht : c ≠ '\t' := by intro he; subst he; exact hc (by decide)
      have hb : c ≠ '\\' := by intro he; subst he; exact hc (by decide)
      have hn : c ≠ '\n' := by intro he; subst he; exact hc (by decide)
      rw [h1, List.cons_append, List.foldl_cons]
      have h2 : pstep ⟨false, fld, row, rows⟩ c = ⟨false, fld ++ [c], row, rows⟩ := by
        simp [pstep, ht, hb, hn]
      rw [h2, ih]
      simp

theorem foldl_pstep_row (cells : List (List Char)) (c : List Char) (row : List String)
    (rows : List (List String)) (rest : List Char) :
    List.foldl pstep ⟨false, [], row, rows⟩ (rowChars (c :: cells) ++ '\n' :: rest) =
      List.foldl pstep ⟨false, [], [], rows ++ [row ++ (c :: cells).map String.mk]⟩ rest := by
  induction cells generalizing c row with
  | nil =>
    rw [show rowChars [c] = escCellChars c from rfl, foldl_pstep_escCell, List.foldl_cons]
    have h2 : pstep ⟨false, [] ++ c, row, rows⟩ '\n' =
        ⟨false, [], [], rows ++ [row ++ [String.mk c]]⟩ := by
      simp [pstep]
    rw [h2]
    simp
  | cons c2 cs ih =>
    have h1 : rowChars (c :: c2 :: cs) = escCellChars c ++ '\t' :: rowChars (c2 :: cs) := rfl
    rw [h1, List.append_assoc, List.cons_append, foldl_pstep_escCell, List.foldl_cons]
    have h2 : pstep ⟨false, [] ++ c, row, rows⟩ '\t' =
        ⟨false, [], row ++ [String.mk c], rows⟩ := by
      simp [pstep]
    rw [h2, ih]
    simp

theorem foldl_pstep_table (rs : List (List (List Char))) (rows : List (List String))
    (h : ∀ r ∈ rs, r ≠ []) :
    List.foldl pstep ⟨false, [], [], rows⟩ (tableChars rs) =
      ⟨false, [], [], rows ++ rs.map (fun r => r.map String.mk)⟩ := by
  induction rs generalizing rows with
  | nil => simp [tableChars, flatMapL]
  | cons r rs ih =>
    obtain ⟨c, cells, rfl⟩ : ∃ c cells, r = c :: cells := by
      cases r with
      | nil => exact absurd rfl (h [] (by simp))
      | cons a b => exact ⟨a, b, rfl⟩
    have hshape : tableChars ((c :: cells) :: rs) =
        rowChars (c :: cells) ++ '\n' :: tableChars rs := by
      simp [tableChars, flatMapL]
    rw [hshape, foldl_pstep_row, ih _ (fun r hr2 => h r (by simp [hr2]))]
    simp

/-- Claim C5: serializing a table to the tab-separated artifact format
(backslash escaping, no quoting, header row) and parsing the text back
reproduces the original row values, including values holding literal
tab or backslash characters. -/
theorem tsv_serialize_parse_roundtrip (header : List String) (rows : List (List String))
    (hh : header ≠ []) (hr : ∀ r ∈ rows, r ≠ []) :
    parseTable (serializeTable header rows) = header :: rows := by
  unfold parseTable serializeTable
  rw [show (String.mk (tableChars ((header :: rows).map (fun r => r.map String.data)))).data
      = tableChars ((header :: rows).map (fun r => r.map String.data)) from rfl]
  rw [foldl_pstep_table]
  · have hcomp : String.mk ∘ String.data = id := funext fun _ => rfl
    simp [List.map_map, hcomp, List.map_id]
  · intro r hrm
    rw [List.mem_map] at hrm
    obtain ⟨r0, hr0, hmap⟩ := hrm
    intro hcon
    rw [← hmap] at hcon
    have hr0nil : r0 = [] := by simpa using hcon
    rcases List.mem_cons.mp hr0 with h0 | h0
    · subst h0
      exact hh hr0nil
    · exact hr r0 h0 hr0nil

theorem tsv_roundtrip_witness :
    ((["CourseID", "Data"] : List String) ≠ [] ∧
      ∀ r ∈ [["tab\there", "back\\slash"]], r ≠ ([] : List String)) ∧
    parseTable (serializeTable ["CourseID", "Data"] [["tab\there", "back\\slash"]]) =
      [["CourseID", "Data"], ["tab\there", "back\\slash"]] :=
  ⟨⟨by decide, by decide⟩,
   tsv_serialize_parse_roundtrip ["CourseID", "Data"] [["tab\there", "back\\slash"]]
     (by decide) (by decide)⟩


theorem sliceGo_spec (rt : RecordTable) (upload : String → UploadResult) :
    ∀ (cs : List (Int × String)) (s b : Bool),
    (∀ c ∈ cs, isOtherB (upload (fnameOf c)) = false) →
    sliceGo rt upload cs s b =
      (flatMapL (perLogs upload) cs, filterMapL (perUpload upload rt) cs,
       Except.ok (s, b && allL (fun c => !isNotFoundB (upload (fnameOf c))) cs)) := by
  intro cs
  induction cs with
  | nil => intro s b _; simp [sliceGo, flatMapL, filterMapL, allL]
  | cons c rest ih =>
    intro s b h
    have hc := h c (by simp)
    cases hu : upload (fnameOf c) with
    | okU =>
      simp only [sliceGo, hu]
      rw [ih s b (fun x hx => h x (by simp [hx]))]
      simp [flatMapL, filterMapL, allL, perLogs, perUpload, isNotFoundB, hu, Bool.and_assoc]
    | notFound m =>
      simp only [sliceGo, hu]
      rw [ih s false (fun x hx => h x (by simp [hx]))]
      simp [flatMapL, filterMapL, allL, perLogs, perUpload, isNotFoundB, hu]
    | otherErr m =>
      rw [hu] at hc
      simp [isOtherB] at hc

theorem countL_append {α : Type} [DecidableEq α] (a : α) (l m : List α) :
    countL a (l ++ m) = countL a l + countL a m := by
  induction l with
  | nil => simp [countL]
  | cons b bs ih => simp [countL, ih, Nat.add_assoc]

theorem countL_flatMap_zero {α β : Type} [DecidableEq β] (a : β) (g : α → List β) :
    ∀ (l : List α), (∀ i (hi : i < l.length), countL a (g (l.get ⟨i, hi⟩)) = 0) →
    countL a (flatMapL g l) = 0 := by
  intro l
  induction l with
  | nil => intro _; simp [flatMapL, countL]
  | cons x xs ih =>
    intro h
    have hx : countL a (g x) = 0 := h 0 (Nat.succ_pos _)
    have hxs : countL a (flatMapL g xs) = 0 :=
      ih (fun i hi => h (i + 1) (Nat.succ_lt_succ hi))
    rw [show flatMapL g (x :: xs) = g x ++ flatMapL g xs from rfl, countL_append, hx, hxs]

theorem countL_flatMap_one {α β : Type} [DecidableEq β] (a : β) (g : α → List β) :
    ∀ (l : List α) (j : Nat) (hj : j < l.length),
    countL a (g (l.get ⟨j, hj⟩)) = 1 →
    (∀ i (hi : i < l.length), i ≠ j → countL a (g (l.get ⟨i, hi⟩)) = 0) →
    countL a (flatMapL g l) = 1 := by
  intro l
  induction l with
  | nil => intro j hj; exact absurd hj (by simp)
  | cons x xs ih =>
    intro j hj h1 h0
    cases j with
    | zero =>
      have hx : countL a (g x) = 1 := h1
      have hxs : countL a (flatMapL g xs) = 0 :=
        countL_flatMap_zero a g xs
          (fun i hi => h0 (i + 1) (Nat.succ_lt_succ hi) (by omega))
      rw [show flatMapL g (x :: xs) = g x ++ flatMapL g xs from rfl, countL_append, hx, hxs]
    | succ k =>
      have hx : countL a (g x) = 0 := h0 0 (Nat.succ_pos _) (by omega)
      have hxs : countL a (flatMapL g xs) = 1 :=
        ih k (Nat.lt_of_succ_lt_succ hj) h1
          (fun i hi hik => h0 (i + 1) (Nat.succ_lt_succ hi) (by omega))
      rw [show flatMapL g (x :: xs) = g x ++ flatMapL g xs from rfl, countL_append, hx, hxs]

theorem filterMapL_all_some {α β : Type} (g : α → Option β) (f : α → β) :
    ∀ (l : List α), (∀ c ∈ l, g c = some (f c)) → filterMapL g l = l.map f := by
  intro l
  induction l with
  | nil => intro _; rfl
  | cons x xs ih =>
    intro h
    simp only [filterMapL]
    rw [h x (by simp)]
    simp [ih (fun c hc => h c (by simp [hc]))]

theorem filterMapL_eraseIdx {α β : Type} (g : α → Option β) (f : α → β) :
    ∀ (l : List α) (j : Nat) (hj : j < l.length),
    g (l.get ⟨j, hj⟩) = none →
    (∀ i (hi : i < l.length), i ≠ j → g (l.get ⟨i, hi⟩) = some (f (l.get ⟨i, hi⟩))) →
    filterMapL g l = (eraseIdxL l j).map f := by
  intro l
  induction l with
  | nil => intro j hj; exact absurd hj (by simp)
  | cons x xs ih =>
    intro j hj hnone hsome
    cases j with
    | zero =>
      simp only [filterMapL]
      rw [show (x :: xs).get ⟨0, hj⟩ = x from rfl] at hnone
      rw [hnone, show eraseIdxL (x :: xs) 0 = xs from rfl]
      refine filterMapL_all_some g f xs (fun c hc => ?_)
      obtain ⟨⟨i, hi⟩, hget⟩ := List.mem_iff_get.mp hc
      have hs := hsome (i + 1) (Nat.succ_lt_succ hi) (by omega)
      rw [show (x :: xs).get ⟨i + 1, Nat.succ_lt_succ hi⟩ = xs.get ⟨i, hi⟩ from rfl] at hs
      rw [hget] at hs
      exact hs
    | succ k =>
      simp only [filterMapL]
      have hx : g x = some (f x) := hsome 0 (Nat.succ_pos _) (by omega)
      rw [hx]
      have hrec := ih k (Nat.lt_of_succ_lt_succ hj) hnone
        (fun i hi hik => hsome (i + 1) (Nat.succ_lt_succ hi) (by omega))
      rw [hrec, show eraseIdxL (x :: xs) (k + 1) = x :: eraseIdxL xs k from rfl]
      simp

theorem allL_true_of_forall {α : Type} (p : α → Bool) :
    ∀ (l : List α), (∀ c ∈ l, p c = true) → allL p l = true := by
  intro l
  induction l with
  | nil => intro _; rfl
  | cons x xs ih =>
    intro h
    simp [allL, h x (by simp), ih (fun c hc => h c (by simp [hc]))]

theorem allL_false_of_mem {α : Type} (p : α → Bool) (x : α) :
    ∀ (l : List α), x ∈ l → p x = false → allL p l = false := by
  intro l
  induction l with
  | nil => intro hm; simp at hm
  | cons y ys ih =>
    intro hm hpx
    rcases List.mem_cons.mp hm with h0 | h0
    · subst h0
      simp [allL, hpx]
    · simp [allL, ih h0 hpx]

theorem perLogs_no_warning (upload : String → UploadResult) (c : Int × String) :
    (perLogs upload c).filter (fun l => LogLine.levelOf l == LogLevel.warning) = [] := by
  cases hu : upload (fnameOf c) <;> simp only [perLogs, hu] <;> rfl

theorem flatMap_perLogs_no_warning (upload : String → UploadResult) :
    ∀ (cs : List (Int × String)),
    (flatMapL (perLogs upload) cs).filter (fun l => LogLine.levelOf l == LogLevel.warning) = [] := by
  intro cs
  induction cs with
  | nil => rfl
  | cons c rest ih =>
    rw [show flatMapL (perLogs upload) (c :: rest) =
        perLogs upload c ++ flatMapL (perLogs upload) rest from rfl]
    rw [List.filter_append, perLogs_no_warning, ih]
    rfl

/-- Claim C3 corrected: with exactly partition `j` failing its upload
with a not-found error, the saved flag comes back false, the failure
line naming partition `j`'s artifact appears exactly once — at error
level, not warning level (the loop emits no warning-level line at
all) — and every other partition's upload is still performed. -/
theorem single_notfound_upload_flags_logs_continues
    (courses : List (Int × String)) (rt : RecordTable) (upload : String → UploadResult)
    (j : Nat) (hj : j < courses.length) (m : String)
    (hfail : upload (fnameOf (courses.get ⟨j, hj⟩)) = UploadResult.notFound m)
    (hok : ∀ i (hi : i < courses.length), i ≠ j →
      upload (fnameOf (courses.get ⟨i, hi⟩)) = UploadResult.okU) :
    (sliceAndPushToGCP courses rt upload).2.2 = Except.ok (true, false) ∧
    countL (LogLine.failedUpload (fnameOf (courses.get ⟨j, hj⟩)))
      (sliceAndPushToGCP courses rt upload).1 = 1 ∧
    LogLine.levelOf (LogLine.failedUpload (fnameOf (courses.get ⟨j, hj⟩))) = LogLevel.error ∧
    ((sliceAndPushToGCP courses rt upload).1.filter
      (fun l => LogLine.levelOf l == LogLevel.warning)) = [] ∧
    (sliceAndPushToGCP courses rt upload).2.1 =
      (eraseIdxL courses j).map (fun c => (fnameOf c, sliceContent rt c.1)) := by
  have hother : ∀ c ∈ courses, isOtherB (upload (fnameOf c)) = false := by
    intro c hc
    obtain ⟨⟨i, hi⟩, hget⟩ := List.mem_iff_get.mp hc
    rw [← hget]
    by_cases hij : i = j
    · rw [show (⟨i, hi⟩ : Fin courses.length) = ⟨j, hj⟩ from Fin.ext hij, hfail]
      rfl
    · rw [hok i hi hij]
      rfl
  unfold sliceAndPushToGCP
  rw [sliceGo_spec rt upload courses true true hother]
  simp only [List.get_eq_getElem] at hfail hok
  refine ⟨?_, ?_, rfl, ?_, ?_⟩
  · have hfalse : allL (fun c => !isNotFoundB (upload (fnameOf c))) courses = false := by
      refine allL_false_of_mem _ (courses.get ⟨j, hj⟩) courses (List.get_mem _ _ _) ?_
      simp only [List.get_eq_getElem]
      rw [hfail]
      rfl
    simp [hfalse]
  · refine countL_flatMap_one _ (perLogs upload) courses j hj ?_ ?_
    · simp [perLogs, hfail, countL]
    · intro i hi hij
      simp [perLogs, hok i hi hij, countL]
  · exact flatMap_perLogs_no_warning upload courses
  · refine filterMapL_eraseIdx (perUpload upload rt)
      (fun c => (fnameOf c, sliceContent rt c.1)) courses j hj ?_ ?_
    · simp [perUpload, hfail]
    · intro i hi hij
      simp [perUpload, hok i hi hij]

/-- Claim C3 counterexample: in a two-partition run where exactly the
first partition's upload raises not-found, no warning-level log line
referencing that partition's artifact name is emitted at all (the
claim asserts exactly one); the failure is logged at error level, the
saved flag is false, and the other partition is still uploaded. -/
theorem upload_notfound_emits_no_warning_level_line :
    upNotFound1 "1 - A.tsv" = UploadResult.notFound "404 blob not found" ∧
    upNotFound1 "2 - B.tsv" = UploadResult.okU ∧
    ((sliceAndPushToGCP [(1, "A"), (2, "B")] rtEmpty upNotFound1).1.filter
      (fun l => (LogLine.levelOf l == LogLevel.warning) &&
        strMentions (LogLine.render l) "1 - A.tsv")).length = 0 ∧
    ((sliceAndPushToGCP [(1, "A"), (2, "B")] rtEmpty upNotFound1).1.filter
      (fun l => (LogLine.levelOf l == LogLevel.error) &&
        strMentions (LogLine.render l) "1 - A.tsv")).length = 1 ∧
    (sliceAndPushToGCP [(1, "A"), (2, "B")] rtEmpty upNotFound1).2.2 =
      Except.ok (true, false) ∧
    (sliceAndPushToGCP [(1, "A"), (2, "B")] rtEmpty upNotFound1).2.1.map Prod.fst =
      ["2 - B.tsv"] :=
  ⟨rfl, rfl, by decide, by decide, by decide, by decide⟩

theorem single_notfound_upload_witness :
    ((0 : Nat) < ([((1 : Int), "A"), ((2 : Int), "B")]).length ∧
      upNotFound1 (fnameOf (((1 : Int), "A"))) = UploadResult.notFound "404 blob not found" ∧
      (∀ i (hi : i < ([((1 : Int), "A"), ((2 : Int), "B")]).length), i ≠ 0 →
        upNotFound1 (fnameOf (([((1 : Int), "A"), ((2 : Int), "B")]).get ⟨i, hi⟩)) =
          UploadResult.okU)) ∧
    ((sliceAndPushToGCP [(1, "A"), (2, "B")] rtEmpty upNotFound1).2.2 =
        Except.ok (true, false) ∧
      countL (LogLine.failedUpload "1 - A.tsv")
        (sliceAndPushToGCP [(1, "A"), (2, "B")] rtEmpty upNotFound1).1 = 1 ∧
      LogLine.levelOf (LogLine.failedUpload "1 - A.tsv") = LogLevel.error ∧
      ((sliceAndPushToGCP [(1, "A"), (2, "B")] rtEmpty upNotFound1).1.filter
        (fun l => LogLine.levelOf l == LogLevel.warning)) = [] ∧
      (sliceAndPushToGCP [(1, "A"), (2, "B")] rtEmpty upNotFound1).2.1 =
        [("2 - B.tsv", sliceContent rtEmpty 2)]) :=
  ⟨⟨by decide, by decide, by decide⟩,
   single_notfound_upload_flags_logs_continues [(1, "A"), (2, "B")] rtEmpty upNotFound1
     0 (by decide) "404 blob not found" (by decide) (by decide)⟩

/-- Claim C8: a partition descriptor matching zero record rows still
gets its artifact produced and uploaded, with header-only content, and
this alone leaves the saved flag true. -/
theorem empty_partition_still_uploaded_header_only
    (courses : List (Int × String)) (rt : RecordTable) (upload : String → UploadResult)
    (k : Int) (label : String)
    (hmem : (k, label) ∈ courses)
    (hnorow : rt.rows.filter (fun r => r.1 == k) = [])
    (hok : ∀ c ∈ courses, upload (fnameOf c) = UploadResult.okU) :
    (sliceAndPushToGCP courses rt upload).2.2 = Except.ok (true, true) ∧
    (fnameOf (k, label), serializeTable rt.header []) ∈
      (sliceAndPushToGCP courses rt upload).2.1 := by
  have hother : ∀ c ∈ courses, isOtherB (upload (fnameOf c)) = false := by
    intro c hc
    rw [hok c hc]
    rfl
  unfold sliceAndPushToGCP
  rw [sliceGo_spec rt upload courses true true hother]
  constructor
  · have hall : allL (fun c => !isNotFoundB (upload (fnameOf c))) courses = true :=
      allL_true_of_forall _ courses (fun c hc => by rw [hok c hc]; rfl)
    simp [hall]
  · rw [filterMapL_all_some (perUpload upload rt)
      (fun c => (fnameOf c, sliceContent rt c.1)) courses
      (fun c hc => by simp [perUpload, hok c hc])]
    have hcontent : sliceContent rt k = serializeTable rt.header [] := by
      simp [sliceContent, hnorow]
    rw [← hcontent]
    exact List.mem_map_of_mem _ hmem

theorem empty_partition_witness :
    (((7 : Int), "Empty") ∈ [(((7 : Int)), "Empty")] ∧
      rt8.rows.filter (fun r => r.1 == (7 : Int)) = [] ∧
      (∀ c ∈ [(((7 : Int)), "Empty")], upOk (fnameOf c) = UploadResult.okU)) ∧
    ((sliceAndPushToGCP [(7, "Empty")] rt8 upOk).2.2 = Except.ok (true, true) ∧
      ("7 - Empty.tsv", serializeTable ["CourseID", "Data"] []) ∈
        (sliceAndPushToGCP [(7, "Empty")] rt8 upOk).2.1) :=
  ⟨⟨by decide, by decide, by decide⟩,
   empty_partition_still_uploaded_header_only [(7, "Empty")] rt8 upOk 7 "Empty"
     (by decide) (by decide) (by decide)⟩


theorem setFromEnv_errFields (env : Env) :
    (setFromEnv env).errFields =
      (bucketFetch env).errs ++ (monthsFetch env).errs ++ (folderFetch env).errs ++
      (queryFilesStep env).errs ++ (dbNameFetch env).errs ++ (dbUserFetch env).errs ++
      (dbPasswordFetch env).errs ++ (dbHostFetch env).errs ++ (dbPortFetch env).errs ++
      (gcpKeyFetch env).errs := rfl

theorem setFromEnv_success (env : Env) :
    (setFromEnv env).success =
      (truthyStr (bucketFetch env).value && truthyInt (monthsFetch env).value &&
       truthyStr (folderFetch env).value && (queryFilesStep env).ok &&
       truthyStr (dbNameFetch env).value && truthyStr (dbUserFetch env).value &&
       truthyStr (dbPasswordFetch env).value && truthyStr (dbHostFetch env).value &&
       truthyInt (dbPortFetch env).value && truthyJson (gcpKeyFetch env).value) := rfl

theorem setFromEnv_checked (env : Env) :
    (setFromEnv env).checked =
      [CfgField.gcloudBucket, CfgField.numberOfMonths, CfgField.queryFolder] ++
      (queryFilesStep env).checked ++
      [CfgField.dbName, CfgField.dbUser, CfgField.dbPassword, CfgField.dbHost,
       CfgField.dbPort, CfgField.gcpKey] := rfl

theorem setFromEnv_courseFile (env : Env) :
    (setFromEnv env).cfg.courseQueryFile = (queryFilesStep env).courseFile := rfl

theorem setFromEnv_retrieveFile (env : Env) :
    (setFromEnv env).cfg.retrieveQueryFile = (queryFilesStep env).retrieveFile := rfl

theorem monthsFetch_dichotomy (env : Env) :
    (monthsFetch env).errs = [] ∨
    ((monthsFetch env).errs = [CfgField.numberOfMonths] ∧ (monthsFetch env).value = none) := by
  unfold monthsFetch fetchInt
  cases henv : env.vars "NUMBER_OF_MONTHS" with
  | none => simp
  | some s =>
    cases hi : pyInt s with
    | none => simp [hi]
    | some v => by_cases h : (0 : Int) < v <;> simp [hi, h]

theorem dbPortFetch_dichotomy (env : Env) :
    (dbPortFetch env).errs = [] ∨
    ((dbPortFetch env).errs = [CfgField.dbPort] ∧ (dbPortFetch env).value = none) := by
  unfold dbPortFetch fetchInt
  cases henv : env.vars "DB_PORT" with
  | none => simp
  | some s =>
    cases hi : pyInt s with
    | none => simp [hi]
    | some v => by_cases h : (0 : Int) < v <;> simp [hi, h]

theorem folderFetch_value_errs (env : Env) :
    ((folderFetch env).value = none ∧ (folderFetch env).errs = [CfgField.queryFolder]) ∨
    ((folderFetch env).value = some (pyStr (pyGet env "QUERY_FOLDER" (some "queries"))) ∧
      (folderFetch env).errs = []) := by
  unfold folderFetch fetchStr
  by_cases h : env.isDir (pyStr (pyGet env "QUERY_FOLDER" (some "queries"))) <;> simp [h]

theorem courseFetch_dichotomy (env : Env) (fval : String) :
    ((courseFetch env fval).errs = [] ∧ (courseFetch env fval).value.isSome) ∨
    ((courseFetch env fval).errs = [CfgField.courseQuery] ∧
      (courseFetch env fval).value = none) := by
  unfold courseFetch fetchStr
  by_cases h : env.isFile
      (fval ++ "/" ++ pyStr (pyGet env "COURSE_QUERY" (some "courseQuery.sql"))) <;> simp [h]

theorem retrieveFetch_dichotomy (env : Env) (fval : String) :
    ((retrieveFetch env fval).errs = [] ∧ (retrieveFetch env fval).value.isSome) ∨
    ((retrieveFetch env fval).errs = [CfgField.retrieveQuery] ∧
      (retrieveFetch env fval).value = none) := by
  unfold retrieveFetch fetchStr
  by_cases h : env.isFile
      (fval ++ "/" ++ pyStr (pyGet env "RETRIEVE_QUERY" (some "retrieveQuery.sql"))) <;> simp [h]

theorem gcpKeyFetch_dichotomy (env : Env) :
    (gcpKeyFetch env).errs = [] ∨
    ((gcpKeyFetch env).errs = [CfgField.gcpKey] ∧ (gcpKeyFetch env).value = none) := by
  unfold gcpKeyFetch fetchJson
  cases h : env.parseJson (pyStr (env.vars "GCP_KEY")) <;> simp [h]

theorem setFromEnv_checked_enabled (env : Env) :
    (setFromEnv env).checked = enabledFields env := by
  rw [setFromEnv_checked]
  unfold enabledFields
  cases hfo : (folderFetch env).value <;> simp [queryFilesStep, hfo]

theorem setFromEnv_fail_of_fieldFails (env : Env) (f : CfgField)
    (hf : fieldFails env f = true) : (setFromEnv env).success = false := by
  rw [setFromEnv_success]
  cases f with
  | gcloudBucket =>
    rw [show fieldFails env CfgField.gcloudBucket = !(bucketFetch env).errs.isEmpty from rfl,
      show (bucketFetch env).errs = [] from rfl] at hf
    simp at hf
  | numberOfMonths =>
    rcases monthsFetch_dichotomy env with h | ⟨_, hv⟩
    · rw [show fieldFails env CfgField.numberOfMonths = !(monthsFetch env).errs.isEmpty from rfl,
        h] at hf
      simp at hf
    · simp [hv, truthyInt]
  | queryFolder =>
    rcases folderFetch_value_errs env with ⟨hv, _⟩ | ⟨_, he⟩
    · simp [hv, truthyStr]
    · rw [show fieldFails env CfgField.queryFolder = !(folderFetch env).errs.isEmpty from rfl,
        he] at hf
      simp at hf
  | courseQuery =>
    rw [show fieldFails env CfgField.courseQuery =
        (match (folderFetch env).value with
         | some fval => !(courseFetch env fval).errs.isEmpty
         | none => false) from rfl] at hf
    cases hfo : (folderFetch env).value with
    | none =>
      rw [hfo] at hf
      exact Bool.noConfusion (show false = true from hf)
    | some fval =>
      rw [hfo] at hf
      have hf' : (!(courseFetch env fval).errs.isEmpty) = true := hf
      rcases courseFetch_dichotomy env fval with ⟨he, _⟩ | ⟨_, hv⟩
      · rw [he] at hf'
        simp at hf'
      · simp [queryFilesStep, hfo, hv, truthyStr]
  | retrieveQuery =>
    rw [show fieldFails env CfgField.retrieveQuery =
        (match (folderFetch env).value with
         | some fval => !(retrieveFetch env fval).errs.isEmpty
         | none => false) from rfl] at hf
    cases hfo : (folderFetch env).value with
    | none =>
      rw [hfo] at hf
      exact Bool.noConfusion (show false = true from hf)
    | some fval =>
      rw [hfo] at hf
      have hf' : (!(retrieveFetch env fval).errs.isEmpty) = true := hf
      rcases retrieveFetch_dichotomy env fval with ⟨he, _⟩ | ⟨_, hv⟩
      · rw [he] at hf'
        simp at hf'
      · simp [queryFilesStep, hfo, hv, truthyStr]
  | dbName =>
    rw [show fieldFails env CfgField.dbName = !(dbNameFetch env).errs.isEmpty from rfl,
      show (dbNameFetch env).errs = [] from rfl] at hf
    simp at hf
  | dbUser =>
    rw [show fieldFails env CfgField.dbUser = !(dbUserFetch env).errs.isEmpty from rfl,
      show (dbUserFetch env).errs = [] from rfl] at hf
    simp at hf
  | dbPassword =>
    rw [show fieldFails env CfgField.dbPassword = !(dbPasswordFetch env).errs.isEmpty from rfl,
      show (dbPasswordFetch env).errs = [] from rfl] at hf
    simp at hf
  | dbHost =>
    rw [show fieldFails env CfgField.dbHost = !(dbHostFetch env).errs.isEmpty from rfl,
      show (dbHostFetch env).errs = [] from rfl] at hf
    simp at hf
  | dbPort =>
    rcases dbPortFetch_dichotomy env with h | ⟨_, hv⟩
    · rw [show fieldFails env CfgField.dbPort = !(dbPortFetch env).errs.isEmpty from rfl,
        h] at hf
      simp at hf
    · simp [hv, truthyInt]
  | gcpKey =>
    rcases gcpKeyFetch_dichotomy env with h | ⟨_, hv⟩
    · rw [show fieldFails env CfgField.gcpKey = !(gcpKeyFetch env).errs.isEmpty from rfl,
        h] at hf
      simp at hf
    · simp [hv, truthyJson]

theorem setFromEnv_errFields_filter (env : Env) :
    (setFromEnv env).errFields = (enabledFields env).filter (fieldFails env) := by
  have hb : (bucketFetch env).errs = [] := rfl
  have hdn : (dbNameFetch env).errs = [] := rfl
  have hdu : (dbUserFetch env).errs = [] := rfl
  have hdp : (dbPasswordFetch env).errs = [] := rfl
  have hdh : (dbHostFetch env).errs = [] := rfl
  rw [setFromEnv_errFields]
  unfold enabledFields
  rcases folderFetch_value_errs env with ⟨hfov, hfoe⟩ | ⟨hfov, hfoe⟩
  · rcases monthsFetch_dichotomy env with hm | ⟨hm, _⟩ <;>
      rcases dbPortFetch_dichotomy env with hpo | ⟨hpo, _⟩ <;>
        rcases gcpKeyFetch_dichotomy env with hg | ⟨hg, _⟩ <;>
          simp [queryFilesStep, hfov, hfoe, hb, hdn, hdu, hdp, hdh, hm, hpo, hg,
            List.filter, fieldFails]
  · rcases monthsFetch_dichotomy env with hm | ⟨hm, _⟩ <;>
      rcases courseFetch_dichotomy env (pyStr (pyGet env "QUERY_FOLDER" (some "queries")))
          with ⟨hc, _⟩ | ⟨hc, _⟩ <;>
        rcases retrieveFetch_dichotomy env (pyStr (pyGet env "QUERY_FOLDER" (some "queries")))
            with ⟨hr, _⟩ | ⟨hr, _⟩ <;>
          rcases dbPortFetch_dichotomy env with hpo | ⟨hpo, _⟩ <;>
            rcases gcpKeyFetch_dichotomy env with hg | ⟨hg, _⟩ <;>
              simp [queryFilesStep, hfov, hfoe, hb, hdn, hdu, hdp, hdh, hm, hc, hr, hpo, hg,
                List.filter, fieldFails]


/-- Claim C1: when any field's cast or validation fails, `setFromEnv`
still runs every enabled check (reporting exactly the failing fields,
not just the first) and the run exits with status 1 on the
configuration message before any database or object-store connection
is attempted (the side-effect trace is empty). -/
theorem config_failure_checks_all_fields_and_aborts_before_connections
    (env : Env) (w : World)
    (h : ∃ f ∈ enabledFields env, fieldFails env f = true) :
    (setFromEnv env).success = false ∧
    (setFromEnv env).checked = enabledFields env ∧
    (setFromEnv env).errFields = (enabledFields env).filter (fieldFails env) ∧
    (mainRun env w).final =
      Final.exited "Exiting due to configuration parameter import problems." ∧
    exitCode (mainRun env w).final = 1 ∧
    (mainRun env w).trace = [] ∧
    (mainRun env w).uploads = [] := by
  obtain ⟨f, _, hf⟩ := h
  have hsucc := setFromEnv_fail_of_fieldFails env f hf
  refine ⟨hsucc, setFromEnv_checked_enabled env, setFromEnv_errFields_filter env, ?_, ?_, ?_, ?_⟩
  · simp [mainRun, hsucc]
  · simp [mainRun, hsucc, exitCode]
  · simp [mainRun, hsucc]
  · simp [mainRun, hsucc]

theorem config_failure_witness :
    (∃ f ∈ enabledFields envMonthsBad, fieldFails envMonthsBad f = true) ∧
    ((setFromEnv envMonthsBad).success = false ∧
     (setFromEnv envMonthsBad).checked = enabledFields envMonthsBad ∧
     (setFromEnv envMonthsBad).errFields =
       (enabledFields envMonthsBad).filter (fieldFails envMonthsBad) ∧
     (mainRun envMonthsBad wOk).final =
       Final.exited "Exiting due to configuration parameter import problems." ∧
     exitCode (mainRun envMonthsBad wOk).final = 1 ∧
     (mainRun envMonthsBad wOk).trace = [] ∧
     (mainRun envMonthsBad wOk).uploads = []) :=
  ⟨by decide,
   config_failure_checks_all_fields_and_aborts_before_connections envMonthsBad wOk (by decide)⟩

/-- Claim C9: when the query-template directory fails its
existing-directory validation, the two query-filename checks never run
(the template names keep their defaults and are absent from the checked
list), every other field is still checked, and the load is marked
failed. -/
theorem invalid_query_folder_skips_file_checks (env : Env)
    (h : fieldFails env CfgField.queryFolder = true) :
    CfgField.courseQuery ∉ (setFromEnv env).checked ∧
    CfgField.retrieveQuery ∉ (setFromEnv env).checked ∧
    (setFromEnv env).cfg.courseQueryFile = some "courseQuery.sql" ∧
    (setFromEnv env).cfg.retrieveQueryFile = some "retrieveQuery.sql" ∧
    (setFromEnv env).checked =
      [CfgField.gcloudBucket, CfgField.numberOfMonths, CfgField.queryFolder,
       CfgField.dbName, CfgField.dbUser, CfgField.dbPassword, CfgField.dbHost,
       CfgField.dbPort, CfgField.gcpKey] ∧
    (setFromEnv env).success = false := by
  have hfo : (folderFetch env).value = none := by
    rcases folderFetch_value_errs env with ⟨hv, _⟩ | ⟨hv, he⟩
    · exact hv
    · rw [show fieldFails env CfgField.queryFolder = !(folderFetch env).errs.isEmpty from rfl,
        he] at h
      simp at h
  have hsucc := setFromEnv_fail_of_fieldFails env _ h
  have hchecked : (setFromEnv env).checked =
      [CfgField.gcloudBucket, CfgField.numberOfMonths, CfgField.queryFolder,
       CfgField.dbName, CfgField.dbUser, CfgField.dbPassword, CfgField.dbHost,
       CfgField.dbPort, CfgField.gcpKey] := by
    rw [setFromEnv_checked]
    simp [queryFilesStep, hfo]
  refine ⟨?_, ?_, ?_, ?_, hchecked, hsucc⟩
  · rw [hchecked]
    decide
  · rw [hchecked]
    decide
  · rw [setFromEnv_courseFile]
    simp [queryFilesStep, hfo]
  · rw [setFromEnv_retrieveFile]
    simp [queryFilesStep, hfo]

theorem invalid_query_folder_witness :
    fieldFails envFolderBad CfgField.queryFolder = true ∧
    (CfgField.courseQuery ∉ (setFromEnv envFolderBad).checked ∧
     CfgField.retrieveQuery ∉ (setFromEnv envFolderBad).checked ∧
     (setFromEnv envFolderBad).cfg.courseQueryFile = some "courseQuery.sql" ∧
     (setFromEnv envFolderBad).cfg.retrieveQueryFile = some "retrieveQuery.sql" ∧
     (setFromEnv envFolderBad).checked =
       [CfgField.gcloudBucket, CfgField.numberOfMonths, CfgField.queryFolder,
        CfgField.dbName, CfgField.dbUser, CfgField.dbPassword, CfgField.dbHost,
        CfgField.dbPort, CfgField.gcpKey] ∧
     (setFromEnv envFolderBad).success = false) :=
  ⟨by decide, invalid_query_folder_skips_file_checks envFolderBad (by decide)⟩

/-- Claim C4: when the course-list query returns zero rows, the run
exits with the distinct nothing-to-do message (different from the
query-failure message), and the record-fetch query is never executed —
the trace holds only the two connection attempts and the course query. -/
theorem empty_course_list_exits_before_data_retrieval (env : Env) (w : World)
    (hs : (setFromEnv env).success = true)
    (hdb : w.dbConnectErr = none)
    (hauth : w.gcpAuth = GCPAuth.okAuth)
    (hbucket : w.bucketExists = true)
    (hq : w.runCourseQuery (courseQueryText env w) = Except.ok []) :
    (mainRun env w).final =
      Final.exited "Exiting due to no courses being found in current configuration." ∧
    LogLine.noCoursesLog ∈ (mainRun env w).logs ∧
    (mainRun env w).trace =
      [Event.dbConnectAttempt (makeConnectString (dbParamsOf (setFromEnv env).cfg)),
       Event.gcpConnectAttempt ((setFromEnv env).cfg.targetBucketName.getD ""),
       Event.courseQueryExec (courseQueryText env w)] ∧
    "Exiting due to no courses being found in current configuration." ≠
      "Exiting due to failure in Course List retrieval." := by
  have hdbc : makeDBConnection w (dbParamsOf (setFromEnv env).cfg) =
      ([LogLine.dbEstablished],
       [Event.dbConnectAttempt (makeConnectString (dbParamsOf (setFromEnv env).cfg))],
       Except.ok ()) := by
    unfold makeDBConnection
    rw [hdb]
  have hgcp : makeGCPConnection w ((setFromEnv env).cfg.targetBucketName.getD "") =
      ([LogLine.bucketFoundLog ((setFromEnv env).cfg.targetBucketName.getD "") w.project,
        LogLine.gcpEstablished],
       [Event.gcpConnectAttempt ((setFromEnv env).cfg.targetBucketName.getD "")],
       Except.ok ()) := by
    unfold makeGCPConnection
    rw [hauth, hbucket]
    simp
  have hq' : w.runCourseQuery (queryRetriever w ((setFromEnv env).cfg.courseQueryFile.getD "")
      ((setFromEnv env).cfg.defaultQueryFolder.getD "")
      (some (toString ((setFromEnv env).cfg.numberOfMonths.getD 0)))) = Except.ok [] := hq
  have hcourse : courseQueryMaker w ((setFromEnv env).cfg.courseQueryFile.getD "")
      ((setFromEnv env).cfg.numberOfMonths.getD 0)
      ((setFromEnv env).cfg.defaultQueryFolder.getD "") =
      ([LogLine.coursesRetrieved],
       [Event.courseQueryExec (queryRetriever w ((setFromEnv env).cfg.courseQueryFile.getD "")
          ((setFromEnv env).cfg.defaultQueryFolder.getD "")
          (some (toString ((setFromEnv env).cfg.numberOfMonths.getD 0))))],
       Except.ok []) := by
    simp [courseQueryMaker, hq']
  refine ⟨?_, ?_, ?_, by decide⟩ <;>
    simp [mainRun, hs, hdbc, hgcp, hcourse, courseQueryText]

theorem empty_course_list_witness :
    ((setFromEnv envOk).success = true ∧
     wOk.dbConnectErr = none ∧
     wOk.gcpAuth = GCPAuth.okAuth ∧
     wOk.bucketExists = true ∧
     wOk.runCourseQuery (courseQueryText envOk wOk) = Except.ok []) ∧
    ((mainRun envOk wOk).final =
       Final.exited "Exiting due to no courses being found in current configuration." ∧
     LogLine.noCoursesLog ∈ (mainRun envOk wOk).logs ∧
     (mainRun envOk wOk).trace =
       [Event.dbConnectAttempt (makeConnectString (dbParamsOf (setFromEnv envOk).cfg)),
        Event.gcpConnectAttempt ((setFromEnv envOk).cfg.targetBucketName.getD ""),
        Event.courseQueryExec (courseQueryText envOk wOk)] ∧
     "Exiting due to no courses being found in current configuration." ≠
       "Exiting due to failure in Course List retrieval.") :=
  ⟨⟨by decide, rfl, rfl, rfl, rfl⟩,
   empty_course_list_exits_before_data_retrieval envOk wOk (by decide) rfl rfl rfl rfl⟩

end MPRData
